import Mathlib

/-!
Shallow embedding of `src-tauri/src/lib.rs` (themasters-pos): three Tauri
commands — `tcp_print_escpos`, `serial_list_ports`, `serial_print_escpos`.
Bytes are modelled as `Nat`; socket addresses as `Nat`.  The outcome of every
OS/library call (host resolution, TCP connect, `write_all`, serial open, chunk
write, flush, port enumeration) is supplied by a "world" record, and each
command is a pure function from the world and its arguments to a trace
recording the I/O it performed and its `Result`.
-/

deriving instance DecidableEq for Except

namespace ThemastersPos

/-- Rust `slice::chunks n`, fuel-indexed so it computes by structural
recursion.  `fuel ≥ l.length` suffices whenever `1 ≤ n`. -/
def chunksAux : Nat → Nat → List Nat → List (List Nat)
  | _, _, [] => []
  | 0, _, _ :: _ => []
  | fuel + 1, n, x :: xs => (x :: xs).take n :: chunksAux fuel n ((x :: xs).drop n)

/-- Rust `data.chunks(n)`: successive sub-slices of length `n`, the last one
possibly shorter; the empty slice yields no chunks. -/
def listChunks (n : Nat) (l : List Nat) : List (List Nat) :=
  chunksAux l.length n l

/-- The sizes of the chunks of a list of length `len`, as a function of the
length only. -/
def chunkSizesAux : Nat → Nat → Nat → List Nat
  | _, _, 0 => []
  | 0, _, _ + 1 => []
  | fuel + 1, n, len + 1 => min n (len + 1) :: chunkSizesAux fuel n (len + 1 - n)

/-- Sizes of `listChunks n l` for a list of length `len`. -/
def chunkSizes (n len : Nat) : List Nat :=
  chunkSizesAux len n len

theorem chunksAux_join (n : Nat) (hn : 1 ≤ n) :
    ∀ (fuel : Nat) (l : List Nat), l.length ≤ fuel → (chunksAux fuel n l).flatten = l := by
  intro fuel
  induction fuel with
  | zero =>
    intro l hl
    cases l with
    | nil => rfl
    | cons x xs => simp at hl
  | succ fuel ih =>
    intro l hl
    cases l with
    | nil => rfl
    | cons x xs =>
      have hdrop : ((x :: xs).drop n).length ≤ fuel := by
        have h1 : ((x :: xs).drop n).length = (x :: xs).length - n := by
          simp [List.length_drop]
        have h2 : (x :: xs).length - n ≤ xs.length := by
          simp only [List.length_cons]
          omega
        have h3 : xs.length ≤ fuel := by
          simp only [List.length_cons] at hl
          omega
        omega
      simp only [chunksAux, List.flatten_cons, ih _ hdrop]
      exact List.take_append_drop n (x :: xs)

theorem chunksAux_length_le (n : Nat) :
    ∀ (fuel : Nat) (l : List Nat) (c : List Nat), c ∈ chunksAux fuel n l → c.length ≤ n := by
  intro fuel
  induction fuel with
  | zero =>
    intro l c hc
    cases l <;> simp [chunksAux] at hc
  | succ fuel ih =>
    intro l c hc
    cases l with
    | nil => simp [chunksAux] at hc
    | cons x xs =>
      simp only [chunksAux, List.mem_cons] at hc
      rcases hc with hc | hc
      · subst hc
        exact List.length_take_le n (x :: xs)
      · exact ih _ _ hc

theorem chunksAux_map_length (n : Nat) :
    ∀ (fuel : Nat) (l : List Nat),
      (chunksAux fuel n l).map List.length = chunkSizesAux fuel n l.length := by
  intro fuel
  induction fuel with
  | zero =>
    intro l
    cases l <;> rfl
  | succ fuel ih =>
    intro l
    cases l with
    | nil => rfl
    | cons x xs =>
      simp only [chunksAux, List.map_cons, ih, chunkSizesAux, List.length_cons,
        List.length_take, List.length_drop]

theorem listChunks_join (n : Nat) (hn : 1 ≤ n) (l : List Nat) :
    (listChunks n l).flatten = l :=
  chunksAux_join n hn l.length l le_rfl

theorem listChunks_length_le (n : Nat) (l : List Nat) :
    ∀ c ∈ listChunks n l, c.length ≤ n :=
  fun c hc => chunksAux_length_le n l.length l c hc

theorem listChunks_map_length (n : Nat) (l : List Nat) :
    (listChunks n l).map List.length = chunkSizes n l.length :=
  chunksAux_map_length n l.length l

/-! ## Port enumeration data model (`serialport` crate types and the DTO) -/

/-- `serialport::UsbPortInfo`: the fields `serial_list_ports` reads. -/
structure UsbPortInfo where
  vid : Nat
  pid : Nat
  manufacturer : Option String
  product : Option String
  serial_number : Option String
deriving DecidableEq

/-- `serialport::SerialPortType`. -/
inductive SerialPortType where
  | UsbPort (info : UsbPortInfo)
  | BluetoothPort
  | PciPort
  | Unknown
deriving DecidableEq

/-- `serialport::SerialPortInfo`: what `available_ports()` returns. -/
structure SerialPortInfo where
  port_name : String
  port_type : SerialPortType
deriving DecidableEq

/-- The `SerialPortDto` struct serialized back to the frontend. -/
structure SerialPortDto where
  port_name : String
  port_type : String
  manufacturer : Option String
  product : Option String
  serial_number : Option String
  vid : Option Nat
  pid : Option Nat
deriving DecidableEq

/-- The body of the `.map(|p| ...)` closure in `serial_list_ports`: start from
the all-`None` "unknown" DTO and override per bus type. -/
def toDto (p : SerialPortInfo) : SerialPortDto :=
  let dto : SerialPortDto :=
    ⟨p.port_name, "unknown", none, none, none, none, none⟩
  match p.port_type with
  | SerialPortType.UsbPort info =>
      ⟨dto.port_name, "usb", info.manufacturer, info.product, info.serial_number,
        some info.vid, some info.pid⟩
  | SerialPortType.BluetoothPort => ⟨dto.port_name, "bluetooth", dto.manufacturer,
      dto.product, dto.serial_number, dto.vid, dto.pid⟩
  | SerialPortType.PciPort => ⟨dto.port_name, "pci", dto.manufacturer,
      dto.product, dto.serial_number, dto.vid, dto.pid⟩
  | SerialPortType.Unknown => dto

/-- Comparison key of `ports.sort_by(|a, b| a.port_name.cmp(&b.port_name))`:
Rust's `String::cmp` is lexicographic, modelled on the character list. -/
def nameLe (a b : SerialPortInfo) : Prop :=
  a.port_name.data ≤ b.port_name.data

instance : DecidableRel nameLe :=
  fun a b => inferInstanceAs (Decidable (a.port_name.data ≤ b.port_name.data))

instance : IsTotal SerialPortInfo nameLe :=
  ⟨fun a b => le_total a.port_name.data b.port_name.data⟩

instance : IsTrans SerialPortInfo nameLe :=
  ⟨fun _ _ _ hab hbc => le_trans hab hbc⟩

/-- World for `serial_list_ports`: the outcome of
`serialport::available_ports()`. -/
structure ListWorld where
  available_ports : Except String (List SerialPortInfo)

/-- `serial_list_ports`: enumerate, sort by port name (Rust `sort_by` is a
stable sort; modelled by the stable `List.insertionSort` over the same key),
then map to DTOs. -/
def serial_list_ports (w : ListWorld) : Except String (List SerialPortDto) :=
  match w.available_ports with
  | Except.error e => Except.error ("Unable to list serial ports: " ++ e)
  | Except.ok ports => Except.ok ((List.insertionSort nameLe ports).map toDto)

/-! ## TCP transport -/

/-- World for `tcp_print_escpos`: outcomes of `to_socket_addrs`, of
`TcpStream::connect_timeout` per address, of `write_all` on the connected
stream (`writeCount` bytes are accepted before a failing `write_all` errors),
and of `flush`. -/
structure TcpWorld where
  resolve : String → Nat → Except String (List Nat)
  connectErr : Nat → Option String
  writeErr : Option String
  writeCount : Nat
  flushErr : Option String

/-- Trace of one `tcp_print_escpos` call: which addresses were passed to
`connect_timeout`, which payload bytes reached the stream, and the `Result`. -/
structure TcpTrace where
  connects : List Nat
  sent : List Nat
  result : Except String Unit
deriving DecidableEq

/-- `tcp_print_escpos`: resolve the host, take the first address (`.next()`),
connect, `write_all` the payload, and discard the flush outcome
(`let _ = stream.flush();`). -/
def tcp_print_escpos (w : TcpWorld) (host : String) (port : Nat) (data : List Nat) : TcpTrace :=
  match w.resolve host port with
  | Except.error e => ⟨[], [], Except.error ("Unable to resolve host: " ++ e)⟩
  | Except.ok [] => ⟨[], [], Except.error "Unable to resolve host"⟩
  | Except.ok (addr :: _) =>
    match w.connectErr addr with
    | some e => ⟨[addr], [], Except.error ("TCP connect failed: " ++ e)⟩
    | none =>
      match w.writeErr with
      | some e => ⟨[addr], data.take w.writeCount,
          Except.error ("TCP write failed: " ++ e)⟩
      | none => ⟨[addr], data, Except.ok ()⟩

/-! ## Serial transport -/

/-- World for `serial_print_escpos`: outcome of `.open()` as a function of the
port name and baud rate, outcome of the `i`-th chunk `write_all`, and outcome
of the final `flush`. -/
structure SerialWorld where
  openErr : String → Nat → Option String
  writeErr : Nat → Option String
  flushErr : Option String

/-- Trace of one `serial_print_escpos` call: the chunk writes that completed,
the number of 20 ms sleeps performed, and the `Result`. -/
structure SerialTrace where
  writes : List (List Nat)
  sleeps : Nat
  result : Except String Unit
deriving DecidableEq

/-- The `for chunk in data.chunks(512)` loop: write each chunk, sleep 20 ms
after every successful chunk write, stop at the first write error. -/
def serialLoop (portName : String) (w : SerialWorld) :
    List (List Nat) → Nat → List (List Nat) × Nat × Except String Unit
  | [], _ => ([], 0, Except.ok ())
  | c :: cs, i =>
    match w.writeErr i with
    | some e => ([], 0,
        Except.error ("Serial write failed (" ++ portName ++ "): " ++ e))
    | none =>
      let r := serialLoop portName w cs (i + 1)
      (c :: r.1, r.2.1 + 1, r.2.2)

/-- `serial_print_escpos`: open the named port, write the payload in 512-byte
chunks with a 20 ms sleep after each, then flush (a flush error is surfaced). -/
def serial_print_escpos (w : SerialWorld) (port : String) (baud : Nat) (data : List Nat) :
    SerialTrace :=
  match w.openErr port baud with
  | some e => ⟨[], 0, Except.error ("Unable to open serial port " ++ port ++ ": " ++ e)⟩
  | none =>
    match serialLoop port w (listChunks 512 data) 0 with
    | (ws, sl, Except.error e) => ⟨ws, sl, Except.error e⟩
    | (ws, sl, Except.ok ()) =>
      match w.flushErr with
      | some e => ⟨ws, sl, Except.error ("Serial flush failed (" ++ port ++ "): " ++ e)⟩
      | none => ⟨ws, sl, Except.ok ()⟩

/-! ## Error-message vocabulary -/

/-- `needle` occurs verbatim inside `hay` ("the error string names X"). -/
def mentions (needle hay : String) : Prop :=
  needle.data <:+: hay.data

instance (a b : String) : Decidable (mentions a b) :=
  inferInstanceAs (Decidable (a.data <:+: b.data))

/-- `s` starts with `p` (error-class recognition by message head). -/
def startsWithStr (p s : String) : Prop :=
  p.data <+: s.data

instance (a b : String) : Decidable (startsWithStr a b) :=
  inferInstanceAs (Decidable (a.data <+: b.data))

theorem mentions_of_eq_append (needle pre suf hay : String)
    (h : hay = pre ++ needle ++ suf) : mentions needle hay := by
  subst h
  refine ⟨pre.data, suf.data, ?_⟩
  simp [String.data_append]

/-! ## Concrete worlds used by witnesses and counterexamples -/

/-- All serial I/O succeeds. -/
def okSerialW : SerialWorld :=
  ⟨fun _ _ => none, fun _ => none, none⟩

/-- All TCP I/O succeeds; the host resolves to the single address `7`. -/
def okTcpW : TcpWorld :=
  ⟨fun _ _ => Except.ok [7], fun _ => none, none, 0, none⟩

/-- The serial port cannot be opened. -/
def openFailW : SerialWorld :=
  ⟨fun _ _ => some "denied", fun _ => none, none⟩

/-- Host resolution errors out. -/
def resolveFailW : TcpWorld :=
  ⟨fun _ _ => Except.error "boom", fun _ => none, none, 0, none⟩

/-- Host resolution succeeds with an empty address list. -/
def emptyResolveW : TcpWorld :=
  ⟨fun _ _ => Except.ok [], fun _ => none, none, 0, none⟩

/-- Two resolved addresses; every connection attempt is refused. -/
def connectFailW : TcpWorld :=
  ⟨fun _ _ => Except.ok [3, 4], fun _ => some "refused", none, 0, none⟩

/-- TCP write succeeds but the final flush fails. -/
def flushFailTcpW : TcpWorld :=
  ⟨fun _ _ => Except.ok [7], fun _ => none, none, 0, some "pipe closed"⟩

/-! ## Loop lemmas -/

theorem serialLoop_ok (portName : String) (w : SerialWorld) :
    ∀ (cs : List (List Nat)) (i : Nat),
      (serialLoop portName w cs i).2.2 = Except.ok () →
      (serialLoop portName w cs i).1 = cs ∧ (serialLoop portName w cs i).2.1 = cs.length := by
  intro cs
  induction cs with
  | nil => intro i _; exact ⟨rfl, rfl⟩
  | cons c cs ih =>
    intro i h
    cases hw : w.writeErr i with
    | some e => simp [serialLoop, hw] at h
    | none =>
      simp only [serialLoop, hw] at h ⊢
      exact ⟨by rw [(ih (i + 1) h).1], by rw [(ih (i + 1) h).2]; rfl⟩

theorem serialLoop_error_shape (portName : String) (w : SerialWorld) :
    ∀ (cs : List (List Nat)) (i : Nat) (e : String),
      (serialLoop portName w cs i).2.2 = Except.error e →
      ∃ (j : Nat) (c : String), w.writeErr j = some c ∧
        e = "Serial write failed (" ++ portName ++ "): " ++ c := by
  intro cs
  induction cs with
  | nil => intro i e h; simp [serialLoop] at h
  | cons c cs ih =>
    intro i e h
    cases hw : w.writeErr i with
    | some cause =>
      simp only [serialLoop, hw] at h
      exact ⟨i, cause, hw, (Except.error.injEq _ _).mp h.symm⟩
    | none =>
      simp only [serialLoop, hw] at h
      exact ih (i + 1) e h

/-- On a successful call, the chunk writes are exactly `data.chunks(512)`. -/
theorem serial_print_writes_eq_chunks (w : SerialWorld) (port : String) (baud : Nat)
    (data : List Nat) (h : (serial_print_escpos w port baud data).result = Except.ok ()) :
    (serial_print_escpos w port baud data).writes = listChunks 512 data := by
  cases hopen : w.openErr port baud with
  | some e => simp [serial_print_escpos, hopen] at h
  | none =>
    rcases hs : serialLoop port w (listChunks 512 data) 0 with ⟨ws, sl, res⟩
    have hw := serialLoop_ok port w (listChunks 512 data) 0
    rw [hs] at hw
    cases res with
    | error e => simp [serial_print_escpos, hopen, hs] at h
    | ok u =>
      cases u
      have hws : ws = listChunks 512 data := (hw rfl).1
      cases hflush : w.flushErr with
      | some e => simp [serial_print_escpos, hopen, hs, hflush] at h
      | none => simp [serial_print_escpos, hopen, hs, hflush, hws]

/-- C1: a successful serial print partitions the payload into in-order chunks
of at most 512 bytes whose concatenation is the payload; a 1025-byte payload
yields exactly three writes of sizes 512, 512 and 1. -/
theorem serial_chunking_partitions_payload (w : SerialWorld) (port : String) (baud : Nat)
    (data : List Nat) (h : (serial_print_escpos w port baud data).result = Except.ok ()) :
    (serial_print_escpos w port baud data).writes.flatten = data ∧
    (∀ c ∈ (serial_print_escpos w port baud data).writes, c.length ≤ 512) ∧
    (data.length = 1025 →
      (serial_print_escpos w port baud data).writes.map List.length = [512, 512, 1]) := by
  rw [serial_print_writes_eq_chunks w port baud data h]
  refine ⟨listChunks_join 512 (by simp) data, listChunks_length_le 512 data, ?_⟩
  intro h1025
  rw [listChunks_map_length, h1025]
  decide

theorem serial_chunking_partitions_payload_witness :
    (serial_print_escpos okSerialW "COM1" 9600 [1, 2, 3]).result = Except.ok () ∧
    ((serial_print_escpos okSerialW "COM1" 9600 [1, 2, 3]).writes.flatten = [1, 2, 3] ∧
     (∀ c ∈ (serial_print_escpos okSerialW "COM1" 9600 [1, 2, 3]).writes, c.length ≤ 512) ∧
     (([1, 2, 3] : List Nat).length = 1025 →
       (serial_print_escpos okSerialW "COM1" 9600 [1, 2, 3]).writes.map List.length =
         [512, 512, 1])) :=
  ⟨by decide, serial_chunking_partitions_payload okSerialW "COM1" 9600 [1, 2, 3] (by decide)⟩

/-- C6: when the named port cannot be opened, the call fails with the
`OpenError`-class message identifying the port, and no chunk write (and no
sleep) happens. -/
theorem serial_open_failure_no_writes (w : SerialWorld) (port : String) (baud : Nat)
    (data : List Nat) (c : String) (h : w.openErr port baud = some c) :
    (serial_print_escpos w port baud data).result =
      Except.error ("Unable to open serial port " ++ port ++ ": " ++ c) ∧
    (serial_print_escpos w port baud data).writes = [] ∧
    (serial_print_escpos w port baud data).sleeps = 0 ∧
    mentions port ("Unable to open serial port " ++ port ++ ": " ++ c) := by
  refine ⟨by simp [serial_print_escpos, h], by simp [serial_print_escpos, h],
    by simp [serial_print_escpos, h], ?_⟩
  exact mentions_of_eq_append port "Unable to open serial port " (": " ++ c) _
    (by rw [String.append_assoc])

theorem serial_open_failure_no_writes_witness :
    openFailW.openErr "COM9" 115200 = some "denied" ∧
    ((serial_print_escpos openFailW "COM9" 115200 [7]).result =
      Except.error ("Unable to open serial port " ++ "COM9" ++ ": " ++ "denied") ∧
    (serial_print_escpos openFailW "COM9" 115200 [7]).writes = [] ∧
    (serial_print_escpos openFailW "COM9" 115200 [7]).sleeps = 0 ∧
    mentions "COM9" ("Unable to open serial port " ++ "COM9" ++ ": " ++ "denied")) :=
  ⟨rfl, serial_open_failure_no_writes openFailW "COM9" 115200 [7] "denied" rfl⟩

/-- C10: an empty payload performs zero chunk writes and zero sleeps, and the
call succeeds whenever the open and the final flush succeed. -/
theorem serial_empty_payload (w : SerialWorld) (port : String) (baud : Nat) :
    (serial_print_escpos w port baud []).writes = [] ∧
    (serial_print_escpos w port baud []).sleeps = 0 ∧
    (w.openErr port baud = none → w.flushErr = none →
      (serial_print_escpos w port baud []).result = Except.ok ()) := by
  cases hopen : w.openErr port baud with
  | some e =>
    refine ⟨by simp [serial_print_escpos, hopen], by simp [serial_print_escpos, hopen], ?_⟩
    intro hno
    exact absurd hno (by simp)
  | none =>
    cases hflush : w.flushErr with
    | some e =>
      refine ⟨by simp [serial_print_escpos, hopen, listChunks, chunksAux, serialLoop, hflush],
        by simp [serial_print_escpos, hopen, listChunks, chunksAux, serialLoop, hflush], ?_⟩
      intro _ hno
      exact absurd hno (by simp)
    | none =>
      exact ⟨by simp [serial_print_escpos, hopen, listChunks, chunksAux, serialLoop, hflush],
        by simp [serial_print_escpos, hopen, listChunks, chunksAux, serialLoop, hflush],
        fun _ _ => by simp [serial_print_escpos, hopen, listChunks, chunksAux, serialLoop, hflush]⟩

theorem serial_empty_payload_witness :
    (serial_print_escpos okSerialW "COM2" 9600 []).writes = [] ∧
    (serial_print_escpos okSerialW "COM2" 9600 []).sleeps = 0 ∧
    (serial_print_escpos okSerialW "COM2" 9600 []).result = Except.ok () :=
  ⟨(serial_empty_payload okSerialW "COM2" 9600).1,
   (serial_empty_payload okSerialW "COM2" 9600).2.1,
   (serial_empty_payload okSerialW "COM2" 9600).2.2 rfl rfl⟩

theorem startsWithStr_trans_append (p q s : String) (h : startsWithStr p q) :
    startsWithStr p (q ++ s) := by
  obtain ⟨t, ht⟩ := h
  exact ⟨t ++ s.data, by rw [String.data_append, ← ht, List.append_assoc]⟩

/-- C2: the TCP print is one logical write-all of the payload: the bytes that
reach the stream are always an in-order initial segment of the payload, and
the call returns success only when the entire payload was written. -/
theorem tcp_print_write_all (w : TcpWorld) (host : String) (port : Nat) (data : List Nat) :
    ((tcp_print_escpos w host port data).result = Except.ok () →
      (tcp_print_escpos w host port data).sent = data) ∧
    (tcp_print_escpos w host port data).sent <+: data := by
  cases hres : w.resolve host port with
  | error e => simp [tcp_print_escpos, hres]
  | ok addrs =>
    cases addrs with
    | nil => simp [tcp_print_escpos, hres]
    | cons a rest =>
      cases hc : w.connectErr a with
      | some e => simp [tcp_print_escpos, hres, hc]
      | none =>
        cases hw : w.writeErr with
        | some e =>
          refine ⟨by simp [tcp_print_escpos, hres, hc, hw], ?_⟩
          simp only [tcp_print_escpos, hres, hc, hw]
          exact List.take_prefix _ _
        | none => simp [tcp_print_escpos, hres, hc, hw]

theorem tcp_print_write_all_witness :
    (tcp_print_escpos okTcpW "printer.local" 9100 [27, 64]).result = Except.ok () ∧
    (tcp_print_escpos okTcpW "printer.local" 9100 [27, 64]).sent = [27, 64] :=
  ⟨by decide, (tcp_print_write_all okTcpW "printer.local" 9100 [27, 64]).1 (by decide)⟩

/-- C7: when resolution errors or yields no address, the call fails with a
`ResolutionError`-class message and attempts no connection and no write. -/
theorem tcp_resolution_failure_no_io (w : TcpWorld) (host : String) (port : Nat)
    (data : List Nat)
    (h : (∃ e, w.resolve host port = Except.error e) ∨ w.resolve host port = Except.ok []) :
    (tcp_print_escpos w host port data).connects = [] ∧
    (tcp_print_escpos w host port data).sent = [] ∧
    ∃ msg, (tcp_print_escpos w host port data).result = Except.error msg ∧
      startsWithStr "Unable to resolve host" msg := by
  rcases h with ⟨e, he⟩ | he
  · refine ⟨by simp [tcp_print_escpos, he], by simp [tcp_print_escpos, he],
      "Unable to resolve host: " ++ e, by simp [tcp_print_escpos, he], ?_⟩
    exact startsWithStr_trans_append _ _ _ (by decide)
  · exact ⟨by simp [tcp_print_escpos, he], by simp [tcp_print_escpos, he],
      "Unable to resolve host", by simp [tcp_print_escpos, he], ⟨[], List.append_nil _⟩⟩

theorem tcp_resolution_failure_no_io_witness :
    ((∃ e, resolveFailW.resolve "printer.local" 9100 = Except.error e) ∨
      resolveFailW.resolve "printer.local" 9100 = Except.ok []) ∧
    ((tcp_print_escpos resolveFailW "printer.local" 9100 [27, 64]).connects = [] ∧
     (tcp_print_escpos resolveFailW "printer.local" 9100 [27, 64]).sent = [] ∧
     ∃ msg, (tcp_print_escpos resolveFailW "printer.local" 9100 [27, 64]).result =
        Except.error msg ∧ startsWithStr "Unable to resolve host" msg) :=
  ⟨Or.inl ⟨"boom", rfl⟩,
    tcp_resolution_failure_no_io resolveFailW "printer.local" 9100 [27, 64]
      (Or.inl ⟨"boom", rfl⟩)⟩

/-- C8: the flush outcome is discarded (`let _ = stream.flush();`): the whole
trace is unchanged by a flush failure, and a call whose write succeeded
returns success even when the flush fails. -/
theorem tcp_flush_failure_ignored (w : TcpWorld) (host : String) (port : Nat)
    (data : List Nat) (c : String) :
    tcp_print_escpos { w with flushErr := some c } host port data =
      tcp_print_escpos { w with flushErr := none } host port data ∧
    (∀ a rest, w.resolve host port = Except.ok (a :: rest) → w.connectErr a = none →
      w.writeErr = none →
      (tcp_print_escpos { w with flushErr := some c } host port data).result =
        Except.ok ()) := by
  refine ⟨rfl, ?_⟩
  intro a rest h1 h2 h3
  simp [tcp_print_escpos, h1, h2, h3]

theorem tcp_flush_failure_ignored_witness :
    (tcp_print_escpos { okTcpW with flushErr := some "pipe closed" }
      "192.168.0.5" 9100 [27, 64]).result = Except.ok () :=
  (tcp_flush_failure_ignored okTcpW "192.168.0.5" 9100 [27, 64] "pipe closed").2
    7 [] rfl rfl rfl

/-- C9: exactly one connection attempt is made, to the first resolved address;
if that connect fails the call errors without trying the other addresses. -/
theorem tcp_connects_first_addr_only (w : TcpWorld) (host : String) (port : Nat)
    (data : List Nat) (a : Nat) (rest : List Nat)
    (h : w.resolve host port = Except.ok (a :: rest)) :
    (tcp_print_escpos w host port data).connects = [a] ∧
    (∀ c, w.connectErr a = some c →
      (tcp_print_escpos w host port data).result =
        Except.error ("TCP connect failed: " ++ c)) := by
  cases hc : w.connectErr a with
  | some e =>
    refine ⟨by simp [tcp_print_escpos, h, hc], ?_⟩
    intro c hcc
    obtain rfl : e = c := by injection hcc
    simp [tcp_print_escpos, h, hc]
  | none =>
    cases hw : w.writeErr with
    | some e =>
      refine ⟨by simp [tcp_print_escpos, h, hc, hw], ?_⟩
      intro c hcc
      exact absurd hcc (by simp)
    | none =>
      refine ⟨by simp [tcp_print_escpos, h, hc, hw], ?_⟩
      intro c hcc
      exact absurd hcc (by simp)

theorem toDto_port_name (p : SerialPortInfo) : (toDto p).port_name = p.port_name := by
  cases hp : p.port_type <;> simp [toDto, hp]

theorem toDto_spec (p : SerialPortInfo) :
    ((toDto p).port_type = "usb" ↔ ((toDto p).vid.isSome ∧ (toDto p).pid.isSome)) ∧
    ((toDto p).port_type ≠ "usb" →
      (toDto p).manufacturer = none ∧ (toDto p).product = none ∧
      (toDto p).serial_number = none ∧ (toDto p).vid = none ∧ (toDto p).pid = none) := by
  cases hp : p.port_type <;> simp [toDto, hp]

/-- Fixed example port list used in the `serial_list_ports` witnesses. -/
def btListW : ListWorld :=
  ⟨Except.ok [⟨"COM5", SerialPortType.BluetoothPort⟩]⟩

/-- C3: a returned descriptor has bus type `"usb"` exactly when both
`vid` and `pid` are populated, and any non-USB descriptor carries `none` in all
five optional fields. -/
theorem list_ports_usb_fields (w : ListWorld) (dtos : List SerialPortDto)
    (h : serial_list_ports w = Except.ok dtos) :
    ∀ dto ∈ dtos,
      ((dto.port_type = "usb") ↔ (dto.vid.isSome ∧ dto.pid.isSome)) ∧
      (dto.port_type ≠ "usb" →
        dto.manufacturer = none ∧ dto.product = none ∧ dto.serial_number = none ∧
        dto.vid = none ∧ dto.pid = none) := by
  cases hav : w.available_ports with
  | error e => simp [serial_list_ports, hav] at h
  | ok ports =>
    simp only [serial_list_ports, hav, Except.ok.injEq] at h
    subst h
    intro dto hdto
    obtain ⟨p, _, rfl⟩ := List.mem_map.mp hdto
    exact toDto_spec p

theorem list_ports_usb_fields_witness :
    serial_list_ports btListW =
      Except.ok [⟨"COM5", "bluetooth", none, none, none, none, none⟩] ∧
    ∀ dto ∈ ([⟨"COM5", "bluetooth", none, none, none, none, none⟩] : List SerialPortDto),
      ((dto.port_type = "usb") ↔ (dto.vid.isSome ∧ dto.pid.isSome)) ∧
      (dto.port_type ≠ "usb" →
        dto.manufacturer = none ∧ dto.product = none ∧ dto.serial_number = none ∧
        dto.vid = none ∧ dto.pid = none) :=
  ⟨by decide, list_ports_usb_fields btListW
    [⟨"COM5", "bluetooth", none, none, none, none, none⟩] (by decide)⟩

/-- C4: a successful enumeration is sorted by port name (every pair, hence
every adjacent pair, in lexicographic order) and is a permutation of the
OS-reported list; underlying order `["COM3", "COM1"]` comes back as
`["COM1", "COM3"]`. -/
theorem list_ports_sorted_permutation :
    (∀ (ports : List SerialPortInfo) (dtos : List SerialPortDto),
        serial_list_ports ⟨Except.ok ports⟩ = Except.ok dtos →
        List.Pairwise (fun a b => a.port_name.data ≤ b.port_name.data) dtos ∧
        dtos.Perm (ports.map toDto)) ∧
    (serial_list_ports ⟨Except.ok [⟨"COM3", SerialPortType.Unknown⟩,
        ⟨"COM1", SerialPortType.Unknown⟩]⟩).map (fun l => l.map SerialPortDto.port_name) =
      Except.ok ["COM1", "COM3"] := by
  constructor
  · intro ports dtos h
    simp only [serial_list_ports, Except.ok.injEq] at h
    subst h
    constructor
    · rw [List.pairwise_map]
      simp only [toDto_port_name]
      exact List.sorted_insertionSort nameLe ports
    · exact (List.perm_insertionSort nameLe ports).map toDto
  · decide

theorem list_ports_sorted_permutation_witness :
    serial_list_ports ⟨Except.ok [⟨"COM3", SerialPortType.Unknown⟩,
        ⟨"COM1", SerialPortType.Unknown⟩]⟩ =
      Except.ok [⟨"COM1", "unknown", none, none, none, none, none⟩,
        ⟨"COM3", "unknown", none, none, none, none, none⟩] ∧
    (List.Pairwise (fun a b => a.port_name.data ≤ b.port_name.data)
        ([⟨"COM1", "unknown", none, none, none, none, none⟩,
          ⟨"COM3", "unknown", none, none, none, none, none⟩] : List SerialPortDto) ∧
      ([⟨"COM1", "unknown", none, none, none, none, none⟩,
        ⟨"COM3", "unknown", none, none, none, none, none⟩] : List SerialPortDto).Perm
        ([⟨"COM3", SerialPortType.Unknown⟩, ⟨"COM1", SerialPortType.Unknown⟩].map toDto)) :=
  ⟨by decide,
   list_ports_sorted_permutation.1
     [⟨"COM3", SerialPortType.Unknown⟩, ⟨"COM1", SerialPortType.Unknown⟩]
     [⟨"COM1", "unknown", none, none, none, none, none⟩,
      ⟨"COM3", "unknown", none, none, none, none, none⟩] (by decide)⟩

theorem tcp_connects_first_addr_only_witness :
    (tcp_print_escpos connectFailW "printer.lan" 9100 [27, 64]).connects = [3] ∧
    (tcp_print_escpos connectFailW "printer.lan" 9100 [27, 64]).result =
      Except.error ("TCP connect failed: " ++ "refused") :=
  ⟨(tcp_connects_first_addr_only connectFailW "printer.lan" 9100 [27, 64] 3 [4] rfl).1,
   (tcp_connects_first_addr_only connectFailW "printer.lan" 9100 [27, 64] 3 [4] rfl).2
     "refused" rfl⟩

theorem mentions_of_append_right (pre needle : String) : mentions needle (pre ++ needle) :=
  ⟨pre.data, [], by simp [String.data_append]⟩

/-- Every failing serial print names the port, the failing operation (by the
fixed message head) and the underlying cause supplied by the failing call:
open, chunk-write and flush failures all interpolate `port_name` and `{e}`. -/
theorem serial_error_cases (w : SerialWorld) (port : String) (baud : Nat)
    (data : List Nat) (e : String)
    (h : (serial_print_escpos w port baud data).result = Except.error e) :
    mentions port e ∧ ∃ c, mentions c e ∧
      ((startsWithStr "Unable to open serial port" e ∧ w.openErr port baud = some c) ∨
       (startsWithStr "Serial write failed" e ∧ ∃ i, w.writeErr i = some c) ∨
       (startsWithStr "Serial flush failed" e ∧ w.flushErr = some c)) := by
  cases hopen : w.openErr port baud with
  | some c =>
    simp only [serial_print_escpos, hopen, Except.error.injEq] at h
    subst h
    refine ⟨mentions_of_eq_append port "Unable to open serial port " (": " ++ c) _
      (by rw [String.append_assoc]), c, mentions_of_append_right _ _,
      Or.inl ⟨?_, rfl⟩⟩
    exact startsWithStr_trans_append _ _ _ (startsWithStr_trans_append _ _ _
      (startsWithStr_trans_append _ _ _ (by decide)))
  | none =>
    rcases hs : serialLoop port w (listChunks 512 data) 0 with ⟨ws, sl, res⟩
    cases res with
    | error m =>
      obtain ⟨i, c, hwi, rfl⟩ := serialLoop_error_shape port w (listChunks 512 data) 0 m
        (by rw [hs])
      simp only [serial_print_escpos, hopen, hs, Except.error.injEq] at h
      subst h
      refine ⟨mentions_of_eq_append port "Serial write failed (" ("): " ++ c) _
        (by rw [String.append_assoc]), c, mentions_of_append_right _ _,
        Or.inr (Or.inl ⟨?_, i, hwi⟩)⟩
      exact startsWithStr_trans_append _ _ _ (startsWithStr_trans_append _ _ _
        (startsWithStr_trans_append _ _ _ (by decide)))
    | ok u =>
      cases u
      cases hflush : w.flushErr with
      | some c =>
        simp only [serial_print_escpos, hopen, hs, hflush, Except.error.injEq] at h
        subst h
        refine ⟨mentions_of_eq_append port "Serial flush failed (" ("): " ++ c) _
          (by rw [String.append_assoc]), c, mentions_of_append_right _ _,
          Or.inr (Or.inr ⟨?_, rfl⟩)⟩
        exact startsWithStr_trans_append _ _ _ (startsWithStr_trans_append _ _ _
          (startsWithStr_trans_append _ _ _ (by decide)))
      | none => simp [serial_print_escpos, hopen, hs, hflush] at h

/-- C5, counterexample to the claim as stated: a failing TCP call whose error
string contains neither the host nor the port, so it does not name the
target. -/
theorem tcp_error_omits_target_cex :
    (tcp_print_escpos resolveFailW "printer.local" 9100 [27, 64]).result =
      Except.error "Unable to resolve host: boom" ∧
    ¬ mentions "printer.local" "Unable to resolve host: boom" ∧
    ¬ mentions "9100" "Unable to resolve host: boom" :=
  ⟨by decide, by decide, by decide⟩

/-- C5, amended: every failing serial print names the failing operation, the
target port name and the underlying cause; every failing TCP print names the
failing operation and names the underlying cause except in the
empty-address-list resolution failure, whose fixed message
`"Unable to resolve host"` has no cause to report — and (per the
counterexample) TCP errors do not name the host:port target. -/
theorem errors_name_operation_and_cause :
    (∀ (w : SerialWorld) (port : String) (baud : Nat) (data : List Nat) (e : String),
        (serial_print_escpos w port baud data).result = Except.error e →
        mentions port e ∧ ∃ c, mentions c e ∧
          ((startsWithStr "Unable to open serial port" e ∧ w.openErr port baud = some c) ∨
           (startsWithStr "Serial write failed" e ∧ ∃ i, w.writeErr i = some c) ∨
           (startsWithStr "Serial flush failed" e ∧ w.flushErr = some c))) ∧
    (∀ (w : TcpWorld) (host : String) (port : Nat) (data : List Nat) (e : String),
        (tcp_print_escpos w host port data).result = Except.error e →
        (e = "Unable to resolve host" ∧ w.resolve host port = Except.ok []) ∨
        ∃ c, mentions c e ∧
          ((startsWithStr "Unable to resolve host" e ∧
             w.resolve host port = Except.error c) ∨
           (startsWithStr "TCP connect failed" e ∧
             ∃ a rest, w.resolve host port = Except.ok (a :: rest) ∧
               w.connectErr a = some c) ∨
           (startsWithStr "TCP write failed" e ∧ w.writeErr = some c))) := by
  refine ⟨serial_error_cases, ?_⟩
  intro w host port data e h
  cases hres : w.resolve host port with
  | error c =>
    simp only [tcp_print_escpos, hres, Except.error.injEq] at h
    subst h
    exact Or.inr ⟨c, mentions_of_append_right _ _,
      Or.inl ⟨startsWithStr_trans_append _ _ _ (by decide), rfl⟩⟩
  | ok addrs =>
    cases addrs with
    | nil =>
      simp only [tcp_print_escpos, hres, Except.error.injEq] at h
      subst h
      exact Or.inl ⟨rfl, rfl⟩
    | cons a rest =>
      cases hc : w.connectErr a with
      | some c =>
        simp only [tcp_print_escpos, hres, hc, Except.error.injEq] at h
        subst h
        exact Or.inr ⟨c, mentions_of_append_right _ _,
          Or.inr (Or.inl ⟨startsWithStr_trans_append _ _ _ (by decide),
            a, rest, rfl, hc⟩)⟩
      | none =>
        cases hw : w.writeErr with
        | some c =>
          simp only [tcp_print_escpos, hres, hc, hw, Except.error.injEq] at h
          subst h
          exact Or.inr ⟨c, mentions_of_append_right _ _,
            Or.inr (Or.inr ⟨startsWithStr_trans_append _ _ _ (by decide), rfl⟩)⟩
        | none => simp [tcp_print_escpos, hres, hc, hw] at h

theorem errors_name_operation_and_cause_witness :
    (mentions "COM4" ("Unable to open serial port " ++ "COM4" ++ ": " ++ "denied") ∧
      ∃ c, mentions c ("Unable to open serial port " ++ "COM4" ++ ": " ++ "denied") ∧
        ((startsWithStr "Unable to open serial port"
            ("Unable to open serial port " ++ "COM4" ++ ": " ++ "denied") ∧
          openFailW.openErr "COM4" 115200 = some c) ∨
         (startsWithStr "Serial write failed"
            ("Unable to open serial port " ++ "COM4" ++ ": " ++ "denied") ∧
          ∃ i, openFailW.writeErr i = some c) ∨
         (startsWithStr "Serial flush failed"
            ("Unable to open serial port " ++ "COM4" ++ ": " ++ "denied") ∧
          openFailW.flushErr = some c))) ∧
    (("Unable to resolve host" = "Unable to resolve host" ∧
        emptyResolveW.resolve "printer.lan" 9100 = Except.ok []) ∨
      ∃ c, mentions c "Unable to resolve host" ∧
        ((startsWithStr "Unable to resolve host" "Unable to resolve host" ∧
          emptyResolveW.resolve "printer.lan" 9100 = Except.error c) ∨
         (startsWithStr "TCP connect failed" "Unable to resolve host" ∧
           ∃ a rest, emptyResolveW.resolve "printer.lan" 9100 = Except.ok (a :: rest) ∧
             emptyResolveW.connectErr a = some c) ∨
         (startsWithStr "TCP write failed" "Unable to resolve host" ∧
          emptyResolveW.writeErr = some c))) :=
  ⟨errors_name_operation_and_cause.1 openFailW "COM4" 115200 []
     ("Unable to open serial port " ++ "COM4" ++ ": " ++ "denied") (by decide),
   errors_name_operation_and_cause.2 emptyResolveW "printer.lan" 9100 [1]
     "Unable to resolve host" (by decide)⟩

end ThemastersPos
